import Mathlib

/-!
Shallow embedding of the Recipe Box service (src/app/main.py, src/app/errors.py,
src/app/models.py) in Lean 4, used to verify the natural-language specification
of its authentication, storage and error-normalization core.

Modelling conventions:
- Python dicts are association lists with first-match lookup and
  insert-or-overwrite assignment (insertion order preserved, as in CPython).
- Python strings are Lean `String` or `List Char`.
- Python bytes are `List (Fin 256)`.
- Randomness (`secrets.token_bytes`, `secrets.token_urlsafe`, `uuid.uuid4`) is
  modelled by passing the drawn value as an explicit parameter.
- `hashlib.pbkdf2_hmac("sha256", password.encode("utf-8"), salt, 120000)` is a
  deterministic library function outside this repository; it is modelled as an
  abstract function parameter `pbkdf2 : String → List (Fin 256) → List (Fin 256)`
  (the utf-8 encoding of the password is absorbed into it). Only its determinism
  is used by any proof.
- A raised `fastapi.HTTPException` is the `Outcome.httpError` constructor; any
  other uncaught Python exception (e.g. `binascii.Error`) is `Outcome.pyError`.
  Mutating methods return the store alongside the outcome, since a raise does
  not roll state back (all mutations in the source happen after the checks).
-/

/-- Python byte value. -/
abbrev PByte := Fin 256

/-- Lookup in a Python dict modelled as an association list (`d.get(k)`). -/
def alistGet {K V : Type} [DecidableEq K] (l : List (K × V)) (k : K) : Option V :=
  match l with
  | [] => none
  | p :: t => if p.1 = k then some p.2 else alistGet t k

/-- Key-membership test in a Python dict (`k in d`). -/
def alistContains {K V : Type} [DecidableEq K] (l : List (K × V)) (k : K) : Bool :=
  match l with
  | [] => false
  | p :: t => if p.1 = k then true else alistContains t k

/-- Assignment `d[k] = v`: overwrite in place when the key exists, else append
(CPython dicts preserve insertion order). -/
def alistSet {K V : Type} [DecidableEq K] (l : List (K × V)) (k : K) (v : V) :
    List (K × V) :=
  if alistContains l k then
    l.map (fun p => if p.1 = k then (k, v) else p)
  else
    l ++ [(k, v)]

/-- Deletion `del d[k]`. -/
def alistErase {K V : Type} [DecidableEq K] (l : List (K × V)) (k : K) :
    List (K × V) :=
  l.filter (fun p => decide (p.1 ≠ k))

theorem alistGet_append_single_self {K V : Type} [DecidableEq K]
    (l : List (K × V)) (k : K) (v : V) (h : alistContains l k = false) :
    alistGet (l ++ [(k, v)]) k = some v := by
  induction l with
  | nil => simp [alistGet]
  | cons p t ih =>
    have hp : ¬ p.1 = k := by
      intro hk
      simp [alistContains, hk] at h
    have ht : alistContains t k = false := by
      simpa [alistContains, hp] using h
    simp [alistGet, hp, ih ht]

theorem alistGet_map_set_self {K V : Type} [DecidableEq K]
    (l : List (K × V)) (k : K) (v : V) (h : alistContains l k = true) :
    alistGet (l.map (fun p => if p.1 = k then (k, v) else p)) k = some v := by
  induction l with
  | nil => simp [alistContains] at h
  | cons p t ih =>
    by_cases hp : p.1 = k
    · simp [alistGet, hp]
    · have ht : alistContains t k = true := by
        simpa [alistContains, hp] using h
      simp [alistGet, hp, ih ht]

theorem alistGet_set_self {K V : Type} [DecidableEq K]
    (l : List (K × V)) (k : K) (v : V) : alistGet (alistSet l k v) k = some v := by
  unfold alistSet
  by_cases h : alistContains l k = true
  · simp only [h, if_true]
    exact alistGet_map_set_self l k v h
  · simp only [h, if_false]
    exact alistGet_append_single_self l k v (by simpa using h)

theorem alistGet_append_single_ne {K V : Type} [DecidableEq K]
    (l : List (K × V)) (k k' : K) (v : V) (h : k' ≠ k) :
    alistGet (l ++ [(k, v)]) k' = alistGet l k' := by
  induction l with
  | nil =>
    have : ¬ k = k' := fun hk => h hk.symm
    simp [alistGet, this]
  | cons p t ih =>
    by_cases hp : p.1 = k'
    · simp [alistGet, hp]
    · simp [alistGet, hp, ih]

theorem alistGet_map_set_ne {K V : Type} [DecidableEq K]
    (l : List (K × V)) (k k' : K) (v : V) (h : k' ≠ k) :
    alistGet (l.map (fun p => if p.1 = k then (k, v) else p)) k' = alistGet l k' := by
  induction l with
  | nil => rfl
  | cons p t ih =>
    by_cases hp : p.1 = k
    · have h1 : ¬ k = k' := fun hk => h hk.symm
      have h2 : ¬ p.1 = k' := by
        rw [hp]
        exact h1
      simp [alistGet, hp, h1, h2, ih]
    · simp [alistGet, hp, ih]

theorem alistGet_set_ne {K V : Type} [DecidableEq K]
    (l : List (K × V)) (k k' : K) (v : V) (h : k' ≠ k) :
    alistGet (alistSet l k v) k' = alistGet l k' := by
  unfold alistSet
  by_cases hc : alistContains l k = true
  · simp only [hc, if_true]
    exact alistGet_map_set_ne l k k' v h
  · simp only [hc, if_false]
    exact alistGet_append_single_ne l k k' v h

theorem alistContains_of_get {K V : Type} [DecidableEq K]
    (l : List (K × V)) (k : K) (v : V) (h : alistGet l k = some v) :
    alistContains l k = true := by
  induction l with
  | nil => simp [alistGet] at h
  | cons p t ih =>
    by_cases hp : p.1 = k
    · simp [alistContains, hp]
    · simp only [alistGet, hp, if_false] at h
      simp [alistContains, hp, ih h]

theorem alistContains_set_self {K V : Type} [DecidableEq K]
    (l : List (K × V)) (k : K) (v : V) : alistContains (alistSet l k v) k = true :=
  alistContains_of_get _ k v (alistGet_set_self l k v)

/-- Python `s.split(sep, 1)` unpacked into exactly two variables: `some (a, b)`
when `sep` occurs (split at the first occurrence), `none` when it does not
(the unpacking then raises `ValueError`). -/
def splitOnce (sep : Char) : List Char → Option (List Char × List Char)
  | [] => none
  | c :: t =>
    if c = sep then some ([], t)
    else (splitOnce sep t).map (fun p => (c :: p.1, p.2))

theorem splitOnce_append (sep : Char) (xs ys : List Char)
    (h : ∀ c ∈ xs, c ≠ sep) :
    splitOnce sep (xs ++ sep :: ys) = some (xs, ys) := by
  induction xs with
  | nil => simp [splitOnce]
  | cons c t ih =>
    have hc : c ≠ sep := h c (by simp)
    have ht : ∀ x ∈ t, x ≠ sep := fun x hx => h x (by simp [hx])
    simp [splitOnce, hc, ih ht]

/-! ### base64 (CPython `base64.b64encode` / `b64decode`, standard alphabet)

`b64decode` is modelled with CPython's default non-strict semantics: characters
outside the alphabet are discarded; a padding character closes the final group
(one `=` after three data characters, two `=` after two); leftover data
characters that no padding completes raise `binascii.Error`, modelled as
`none`. -/

/-- The standard base64 alphabet. -/
def b64alphabet : List Char :=
  "ABCDEFGHIJKLMNOPQRSTUVWXYZabcdefghijklmnopqrstuvwxyz0123456789+/".data

/-- Character for a 6-bit value. -/
def b64Char (n : Nat) : Char := b64alphabet.getD n 'A'

/-- `base64.b64encode` on a byte string, as a character list. -/
def b64encodeChars : List PByte → List Char
  | [] => []
  | [b1] =>
      [b64Char (b1.val / 4), b64Char (b1.val % 4 * 16), '=', '=']
  | [b1, b2] =>
      [b64Char (b1.val / 4), b64Char (b1.val % 4 * 16 + b2.val / 16),
       b64Char (b2.val % 16 * 4), '=']
  | b1 :: b2 :: b3 :: rest =>
      b64Char (b1.val / 4) :: b64Char (b1.val % 4 * 16 + b2.val / 16) ::
      b64Char (b2.val % 16 * 4 + b3.val / 64) :: b64Char (b3.val % 64) ::
      b64encodeChars rest

/-- Value of a base64 alphabet character, `none` for non-alphabet characters. -/
def b64val (c : Char) : Option Nat := b64alphabet.indexOf? c

/-- After a first `=` closing a two-character group, CPython requires the next
significant character (alphabet or `=`) to be a second `=`. -/
def nextSignificantIsPad : List Char → Bool
  | [] => false
  | c :: rest =>
    if c = '=' then true
    else if (b64val c).isSome then false
    else nextSignificantIsPad rest

/-- Byte from a Nat, reduced mod 256. -/
def mkByte (n : Nat) : PByte := ⟨n % 256, Nat.mod_lt _ (by norm_num)⟩

/-- Decode loop of CPython `binascii.a2b_base64` (non-strict): `pending` holds
the 6-bit values of the current group. -/
def b64decodeLoop : List Char → List Nat → Option (List PByte)
  | [], pending => if pending = [] then some [] else none
  | c :: rest, pending =>
    if c = '=' then
      match pending with
      | [] => b64decodeLoop rest []
      | [v1, v2] =>
          if nextSignificantIsPad rest then
            some [mkByte (v1 * 4 + v2 / 16)]
          else none
      | [v1, v2, v3] =>
          some [mkByte (v1 * 4 + v2 / 16), mkByte (v2 % 16 * 16 + v3 / 4)]
      | _ => none
    else
      match b64val c with
      | none => b64decodeLoop rest pending
      | some v =>
        match pending with
        | [v1, v2, v3] =>
            (b64decodeLoop rest []).map
              (fun bs => mkByte (v1 * 4 + v2 / 16) :: mkByte (v2 % 16 * 16 + v3 / 4) ::
                         mkByte (v3 % 4 * 64 + v) :: bs)
        | _ => b64decodeLoop rest (pending ++ [v])

/-- `base64.b64decode` on a string: `none` models a raised `binascii.Error`. -/
def pyB64decode (s : String) : Option (List PByte) := b64decodeLoop s.data []

theorem b64val_b64Char_all : ∀ n, n < 64 → b64val (b64Char n) = some n := by decide

theorem b64Char_ne_pad_all : ∀ n, n < 64 → ¬(b64Char n = '=') := by decide

theorem b64_roundtrip (bs : List PByte) :
    b64decodeLoop (b64encodeChars bs) [] = some bs := by
  induction bs using b64encodeChars.induct with
  | case1 => rfl
  | case2 b1 =>
    have hb1 := b1.isLt
    have h1 : b1.val / 4 < 64 := by omega
    have h2 : b1.val % 4 * 16 < 64 := by omega
    have e1 := b64val_b64Char_all _ h1
    have e2 := b64val_b64Char_all _ h2
    have n1 := b64Char_ne_pad_all _ h1
    have n2 := b64Char_ne_pad_all _ h2
    have q1 : mkByte (b1.val / 4 * 4 + b1.val % 4) = b1 := by
      apply Fin.ext
      show (b1.val / 4 * 4 + b1.val % 4) % 256 = b1.val
      omega
    simp only [b64encodeChars, b64decodeLoop, n1, n2, if_false, e1, e2,
      nextSignificantIsPad, List.nil_append, List.cons_append]
    simp [q1]
  | case3 b1 b2 =>
    have hb1 := b1.isLt
    have hb2 := b2.isLt
    have h1 : b1.val / 4 < 64 := by omega
    have h2 : b1.val % 4 * 16 + b2.val / 16 < 64 := by omega
    have h3 : b2.val % 16 * 4 < 64 := by omega
    have e1 := b64val_b64Char_all _ h1
    have e2 := b64val_b64Char_all _ h2
    have e3 := b64val_b64Char_all _ h3
    have n1 := b64Char_ne_pad_all _ h1
    have n2 := b64Char_ne_pad_all _ h2
    have n3 := b64Char_ne_pad_all _ h3
    have q1 : mkByte (b1.val / 4 * 4 + (b1.val % 4 * 16 + b2.val / 16) / 16) = b1 := by
      apply Fin.ext
      show (b1.val / 4 * 4 + (b1.val % 4 * 16 + b2.val / 16) / 16) % 256 = b1.val
      omega
    have q2 : mkByte ((b1.val % 4 * 16 + b2.val / 16) % 16 * 16 + b2.val % 16) = b2 := by
      apply Fin.ext
      show ((b1.val % 4 * 16 + b2.val / 16) % 16 * 16 + b2.val % 16) % 256 = b2.val
      omega
    simp only [b64encodeChars, b64decodeLoop, n1, n2, n3, if_false, e1, e2, e3,
      List.nil_append, List.cons_append]
    simp [q1, q2]
  | case4 b1 b2 b3 rest ih =>
    have hb1 := b1.isLt
    have hb2 := b2.isLt
    have hb3 := b3.isLt
    have h1 : b1.val / 4 < 64 := by omega
    have h2 : b1.val % 4 * 16 + b2.val / 16 < 64 := by omega
    have h3 : b2.val % 16 * 4 + b3.val / 64 < 64 := by omega
    have h4 : b3.val % 64 < 64 := by omega
    have e1 := b64val_b64Char_all _ h1
    have e2 := b64val_b64Char_all _ h2
    have e3 := b64val_b64Char_all _ h3
    have e4 := b64val_b64Char_all _ h4
    have n1 := b64Char_ne_pad_all _ h1
    have n2 := b64Char_ne_pad_all _ h2
    have n3 := b64Char_ne_pad_all _ h3
    have n4 := b64Char_ne_pad_all _ h4
    have q1 : mkByte (b1.val / 4 * 4 + (b1.val % 4 * 16 + b2.val / 16) / 16) = b1 := by
      apply Fin.ext
      show (b1.val / 4 * 4 + (b1.val % 4 * 16 + b2.val / 16) / 16) % 256 = b1.val
      omega
    have q2 : mkByte ((b1.val % 4 * 16 + b2.val / 16) % 16 * 16 + (b2.val % 16 * 4 + b3.val / 64) / 4) = b2 := by
      apply Fin.ext
      show ((b1.val % 4 * 16 + b2.val / 16) % 16 * 16 + (b2.val % 16 * 4 + b3.val / 64) / 4) % 256 = b2.val
      omega
    have q3 : mkByte ((b2.val % 16 * 4 + b3.val / 64) % 4 * 64 + b3.val % 64) = b3 := by
      apply Fin.ext
      show ((b2.val % 16 * 4 + b3.val / 64) % 4 * 64 + b3.val % 64) % 256 = b3.val
      omega
    simp only [b64encodeChars, b64decodeLoop, n1, n2, n3, n4, if_false, e1, e2, e3, e4,
      List.nil_append, List.cons_append, ih]
    simp [q1, q2, q3]

theorem b64Char_ne_colon_all : ∀ n, n < 64 → ¬(b64Char n = ':') := by decide

theorem b64encode_no_colon (bs : List PByte) :
    ∀ c ∈ b64encodeChars bs, c ≠ ':' := by
  induction bs using b64encodeChars.induct with
  | case1 => intro c hc; simp [b64encodeChars] at hc
  | case2 b1 =>
    have hb1 := b1.isLt
    intro c hc
    simp only [b64encodeChars, List.mem_cons, List.mem_singleton, List.not_mem_nil] at hc
    rcases hc with h | h | h | h | h
    · exact h ▸ b64Char_ne_colon_all _ (by omega)
    · exact h ▸ b64Char_ne_colon_all _ (by omega)
    · exact h ▸ (by decide)
    · exact h ▸ (by decide)
    · exact absurd h (by simp)
  | case3 b1 b2 =>
    have hb1 := b1.isLt
    have hb2 := b2.isLt
    intro c hc
    simp only [b64encodeChars, List.mem_cons, List.not_mem_nil] at hc
    rcases hc with h | h | h | h | h
    · exact h ▸ b64Char_ne_colon_all _ (by omega)
    · exact h ▸ b64Char_ne_colon_all _ (by omega)
    · exact h ▸ b64Char_ne_colon_all _ (by omega)
    · exact h ▸ (by decide)
    · exact absurd h (by simp)
  | case4 b1 b2 b3 rest ih =>
    have hb1 := b1.isLt
    have hb2 := b2.isLt
    have hb3 := b3.isLt
    intro c hc
    simp only [b64encodeChars, List.mem_cons] at hc
    rcases hc with h | h | h | h | h
    · exact h ▸ b64Char_ne_colon_all _ (by omega)
    · exact h ▸ b64Char_ne_colon_all _ (by omega)
    · exact h ▸ b64Char_ne_colon_all _ (by omega)
    · exact h ▸ b64Char_ne_colon_all _ (by omega)
    · exact ih c h

/-- Type of the abstract key-derivation function modelling
`hashlib.pbkdf2_hmac("sha256", password.encode("utf-8"), salt, 120000)`
(a deterministic function of password and salt). -/
def PBKDF2 : Type := String → List PByte → List PByte

/-- `hash_password` from src/app/main.py. The 16 random bytes drawn by
`secrets.token_bytes(16)` are the explicit `salt` parameter. -/
def hash_password (pbkdf2 : PBKDF2) (salt : List PByte) (password : String) : String :=
  String.mk (b64encodeChars salt) ++ ":" ++ String.mk (b64encodeChars (pbkdf2 password salt))

/-- `verify_password` from src/app/main.py. The `try` block covers only the
split; a `binascii.Error` escaping from `base64.b64decode` is `.error`.
`hmac.compare_digest` is byte-string equality (its constant-time execution has
no value-level content). -/
def verify_password (pbkdf2 : PBKDF2) (password stored : String) : Except String Bool :=
  match splitOnce ':' stored.data with
  | none => .ok false
  | some (salt_b64, digest_b64) =>
    match b64decodeLoop salt_b64 [] with
    | none => .error "binascii.Error"
    | some salt =>
      match b64decodeLoop digest_b64 [] with
      | none => .error "binascii.Error"
      | some expected => .ok (decide (pbkdf2 password salt = expected))

theorem hash_password_data (pbkdf2 : PBKDF2) (salt : List PByte) (password : String) :
    (hash_password pbkdf2 salt password).data =
      b64encodeChars salt ++ ':' :: b64encodeChars (pbkdf2 password salt) := by
  unfold hash_password
  simp [String.data_append, List.append_assoc]

theorem verify_hash_password (pbkdf2 : PBKDF2) (salt : List PByte) (password : String) :
    verify_password pbkdf2 password (hash_password pbkdf2 salt password) = .ok true := by
  unfold verify_password
  rw [hash_password_data, splitOnce_append ':' _ _ (b64encode_no_colon salt)]
  simp [b64_roundtrip]

theorem hash_password_salt_inj (pbkdf2 : PBKDF2) (password : String) (s1 s2 : List PByte)
    (h : hash_password pbkdf2 s1 password = hash_password pbkdf2 s2 password) : s1 = s2 := by
  have hd : (hash_password pbkdf2 s1 password).data = (hash_password pbkdf2 s2 password).data := by
    rw [h]
  rw [hash_password_data, hash_password_data] at hd
  have h1 := splitOnce_append ':' _ (b64encodeChars (pbkdf2 password s1)) (b64encode_no_colon s1)
  have h2 := splitOnce_append ':' _ (b64encodeChars (pbkdf2 password s2)) (b64encode_no_colon s2)
  rw [hd] at h1
  rw [h2] at h1
  have henc : b64encodeChars s2 = b64encodeChars s1 := by
    injection h1 with h1'
    exact congrArg Prod.fst h1'
  have := b64_roundtrip s1
  rw [← henc, b64_roundtrip s2] at this
  injection this with h'
  exact h'.symm

/-! ### Data model (src/app/models.py) and store state (src/app/main.py) -/

/-- A raised `fastapi.HTTPException` (status code and string detail). -/
structure HTTPError where
  status_code : Nat
  detail : String
deriving DecidableEq

/-- Result of running a handler or store method: normal return, a raised
`HTTPException`, or any other uncaught Python exception. -/
inductive Outcome (α : Type) where
  | ok : α → Outcome α
  | httpError : HTTPError → Outcome α
  | pyError : String → Outcome α
deriving DecidableEq

/-- `UserRegister` payload (post-parsing field values). -/
structure UserRegister where
  email : String
  password : String
deriving DecidableEq

/-- `UserLogin` payload (post-parsing field values). -/
structure UserLogin where
  email : String
  password : String
deriving DecidableEq

/-- `UserPublic` response model. -/
structure UserPublic where
  id : Nat
  email : String
deriving DecidableEq

/-- The per-user record dict stored in `InMemoryRecipeStore._users`. -/
structure UserRecord where
  id : Nat
  email : String
  password_hash : String
deriving DecidableEq

/-- `Ingredient` model. -/
structure Ingredient where
  id : Nat
  name : String
deriving DecidableEq

/-- `RecipeIngredient` model (`Decimal` amounts are modelled as rationals;
no claim computes with them). -/
structure RecipeIngredient where
  ingredient_id : Nat
  amount : Rat
  unit : String
deriving DecidableEq

/-- `RecipeIngredientCreate` model (same fields as `RecipeIngredient`). -/
structure RecipeIngredientCreate where
  ingredient_id : Nat
  amount : Rat
  unit : String
deriving DecidableEq

/-- `Recipe` model. -/
structure Recipe where
  id : Nat
  owner_id : Nat
  title : String
  steps : String
  ingredients : List RecipeIngredient
deriving DecidableEq

/-- `RecipeUpdate` model: every field optional (`None` when omitted). -/
structure RecipeUpdate where
  title : Option String
  steps : Option String
  ingredients : Option (List RecipeIngredientCreate)
deriving DecidableEq

/-- `RecipeCreate` model. -/
structure RecipeCreate where
  title : String
  steps : String
  ingredients : List RecipeIngredientCreate
deriving DecidableEq

/-- State of `InMemoryRecipeStore`: its dicts and `itertools.count` counters
(a counter is the next value it will yield). -/
structure Store where
  ingredients : List (Nat × Ingredient)
  ingredients_by_name : List (String × Nat)
  recipes : List (Nat × Recipe)
  ingredient_seq : Nat
  recipe_seq : Nat
  users : List (Nat × UserRecord)
  users_by_email : List (String × Nat)
  sessions : List (String × Nat)
  user_seq : Nat
deriving DecidableEq

/-- Python whitespace test used by `str.strip()` (ASCII whitespace; the
emails and tokens of this service are ASCII). -/
def pyIsSpace (c : Char) : Bool :=
  c = ' ' ∨ c = '\t' ∨ c = '\n' ∨ c = '\r' ∨ c = '\x0b' ∨ c = '\x0c'

/-- Python `s.strip()`: drop leading and trailing whitespace. -/
def pyStrip (s : String) : String :=
  String.mk (((s.data.dropWhile pyIsSpace).reverse.dropWhile pyIsSpace).reverse)

/-- Python `str.lower()` on one character (ASCII case mapping). -/
def pyLowerChar (c : Char) : Char :=
  if 'A' ≤ c ∧ c ≤ 'Z' then Char.ofNat (c.toNat + 32) else c

/-- Python `s.lower()`. -/
def pyLower (s : String) : String := String.mk (s.data.map pyLowerChar)

/-- `InMemoryRecipeStore._normalize_email`: `email.strip().lower()`. -/
def _normalize_email (email : String) : String := pyLower (pyStrip email)

/-- `InMemoryRecipeStore._normalize_name`: `name.strip().casefold()` (for the
ASCII names used here, casefold coincides with lowercasing). -/
def _normalize_name (name : String) : String := pyLower (pyStrip name)

/-- `InMemoryRecipeStore.create_user`. The salt drawn inside `hash_password`
is the explicit `salt` parameter. -/
def create_user (pbkdf2 : PBKDF2) (salt : List PByte) (s : Store)
    (payload : UserRegister) : Outcome UserPublic × Store :=
  let email := _normalize_email payload.email
  if alistContains s.users_by_email email then
    (.httpError ⟨409, "User already exists"⟩, s)
  else
    let user_id := s.user_seq
    let record : UserRecord := ⟨user_id, email, hash_password pbkdf2 salt payload.password⟩
    (.ok ⟨user_id, email⟩,
      { s with users := alistSet s.users user_id record,
               users_by_email := alistSet s.users_by_email email user_id,
               user_seq := s.user_seq + 1 })

/-- `InMemoryRecipeStore.authenticate_user`. The token drawn by
`generate_token()` is the explicit `token` parameter. `if not user_id:` is
Python truthiness: it also fires when the looked-up id is `0`.
`self._users[user_id]` raises `KeyError` when the id is absent. -/
def authenticate_user (pbkdf2 : PBKDF2) (token : String) (s : Store)
    (payload : UserLogin) : Outcome String × Store :=
  let email := _normalize_email payload.email
  match alistGet s.users_by_email email with
  | none => (.httpError ⟨401, "Invalid credentials"⟩, s)
  | some user_id =>
    if user_id = 0 then (.httpError ⟨401, "Invalid credentials"⟩, s)
    else
      match alistGet s.users user_id with
      | none => (.pyError "KeyError", s)
      | some record =>
        match verify_password pbkdf2 payload.password record.password_hash with
        | .error e => (.pyError e, s)
        | .ok false => (.httpError ⟨401, "Invalid credentials"⟩, s)
        | .ok true =>
          (.ok token, { s with sessions := alistSet s.sessions token user_id })

/-- `InMemoryRecipeStore.get_user`. `if not record:` would also fire on an
empty record dict, which never occurs; records are absent or complete. -/
def get_user (s : Store) (user_id : Nat) : Outcome UserPublic :=
  match alistGet s.users user_id with
  | none => .httpError ⟨404, "User not found"⟩
  | some record => .ok ⟨record.id, record.email⟩

/-- `InMemoryRecipeStore.get_user_by_token`. `if not user_id:` is Python
truthiness: it also fires when the session maps to id `0`. -/
def get_user_by_token (s : Store) (token : String) : Outcome UserPublic :=
  match alistGet s.sessions token with
  | none => .httpError ⟨401, "Invalid or expired token"⟩
  | some user_id =>
    if user_id = 0 then .httpError ⟨401, "Invalid or expired token"⟩
    else get_user s user_id

/-- `InMemoryRecipeStore.get_recipe`. A present recipe model is always truthy,
so `if not recipe or recipe.owner_id != owner_id:` is absence or ownership
mismatch. -/
def get_recipe (s : Store) (recipe_id : Nat) (owner_id : Nat) : Outcome Recipe :=
  match alistGet s.recipes recipe_id with
  | none => .httpError ⟨404, "Recipe not found"⟩
  | some recipe =>
    if recipe.owner_id ≠ owner_id then .httpError ⟨404, "Recipe not found"⟩
    else .ok recipe

/-- `InMemoryRecipeStore._convert_recipe_ingredient`. -/
def _convert_recipe_ingredient (s : Store) (ingredient : RecipeIngredientCreate) :
    Except HTTPError RecipeIngredient :=
  if ¬ alistContains s.ingredients ingredient.ingredient_id then
    .error ⟨422, "Unknown ingredient_id=" ++ toString ingredient.ingredient_id⟩
  else
    .ok ⟨ingredient.ingredient_id, ingredient.amount, ingredient.unit⟩

/-- The list comprehension `[self._convert_recipe_ingredient(ing) for ing in ...]`
with exception propagation. -/
def convertIngredients (s : Store) : List RecipeIngredientCreate →
    Except HTTPError (List RecipeIngredient)
  | [] => .ok []
  | i :: t =>
    match _convert_recipe_ingredient s i with
    | .error e => .error e
    | .ok r =>
      match convertIngredients s t with
      | .error e => .error e
      | .ok rs => .ok (r :: rs)

/-- `InMemoryRecipeStore.update_recipe` (the store method: existence and
ownership check, then field-wise merge, then write-back). -/
def Store.update_recipe (s : Store) (recipe_id : Nat) (owner_id : Nat)
    (payload : RecipeUpdate) : Outcome Recipe × Store :=
  match alistGet s.recipes recipe_id with
  | none => (.httpError ⟨404, "Recipe not found"⟩, s)
  | some recipe =>
    if recipe.owner_id ≠ owner_id then (.httpError ⟨404, "Recipe not found"⟩, s)
    else
      let title := match payload.title with | none => recipe.title | some t => t
      let steps := match payload.steps with | none => recipe.steps | some t => t
      match payload.ingredients with
      | none =>
        let updated : Recipe := ⟨recipe.id, recipe.owner_id, title, steps, recipe.ingredients⟩
        (.ok updated, { s with recipes := alistSet s.recipes recipe_id updated })
      | some ings =>
        match convertIngredients s ings with
        | .error e => (.httpError e, s)
        | .ok rs =>
          let updated : Recipe := ⟨recipe.id, recipe.owner_id, title, steps, rs⟩
          (.ok updated, { s with recipes := alistSet s.recipes recipe_id updated })

/-- `InMemoryRecipeStore.delete_recipe`. -/
def delete_recipe (s : Store) (recipe_id : Nat) (owner_id : Nat) :
    Outcome Unit × Store :=
  match alistGet s.recipes recipe_id with
  | none => (.httpError ⟨404, "Recipe not found"⟩, s)
  | some recipe =>
    if recipe.owner_id ≠ owner_id then (.httpError ⟨404, "Recipe not found"⟩, s)
    else (.ok (), { s with recipes := alistErase s.recipes recipe_id })

/-- The (scheme, token) pair of `fastapi.security.HTTPAuthorizationCredentials`. -/
structure HTTPAuthorizationCredentials where
  scheme : String
  credentials : String
deriving DecidableEq

/-- `get_current_user` from src/app/main.py: the bearer-token dependency.
`credentials` is `none` when `HTTPBearer(auto_error=False)` found no usable
authorization header. -/
def get_current_user (s : Store)
    (credentials : Option HTTPAuthorizationCredentials) : Outcome UserPublic :=
  match credentials with
  | none => .httpError ⟨401, "Authorization header missing"⟩
  | some creds =>
    if pyLower creds.scheme ≠ "bearer" then
      .httpError ⟨401, "Authorization header missing"⟩
    else
      let token := pyStrip creds.credentials
      if token = "" then .httpError ⟨401, "Authorization header missing"⟩
      else get_user_by_token s token

/-- The `PATCH /recipes/recipe_id` route handler `update_recipe`:
`payload.model_dump(exclude_none=True) == {}` is exactly all three fields
being `None`; the store method runs only past that check. -/
def update_recipe_route (s : Store) (recipe_id : Nat) (payload : RecipeUpdate)
    (owner_id : Nat) : Outcome Recipe × Store :=
  if payload.title = none ∧ payload.steps = none ∧ payload.ingredients = none then
    (.httpError ⟨400, "No fields to update"⟩, s)
  else
    Store.update_recipe s recipe_id owner_id payload

/-! ### Registration validators (src/app/models.py)

Pydantic order on a field: `str_strip_whitespace` from `StrictModel`, then the
`Field` length constraints, then the `field_validator`. Python `str.isalpha` /
`str.isdigit` are modelled by the ASCII `Char.isAlpha` / `Char.isDigit`. -/

/-- The `email` field of `UserBase`: strip, length 5..255, then
`validate_email` (which returns `value.strip().lower()` after the shape
checks). `none` models a raised `ValueError`. -/
def validate_email_field (value : String) : Option String :=
  let v := pyStrip value
  if v.length < 5 ∨ 255 < v.length then none
  else
    let email := pyLower (pyStrip v)
    if ¬ email.data.contains '@' ∨ email.data.head? = some '@' ∨
        email.data.getLast? = some '@' then none
    else
      match splitOnce '@' email.data with
      | none => none
      | some (localPart, domain) =>
        if ¬ domain.contains '.' ∨ localPart = [] ∨ domain = [] then none
        else some email

/-- The `password` field of `UserRegister`: strip, length 8..128, then
`validate_password` (at least one letter and one digit). -/
def validate_password_field (value : String) : Option String :=
  let v := pyStrip value
  if v.length < 8 ∨ 128 < v.length then none
  else if ¬ v.data.any Char.isAlpha ∨ ¬ v.data.any Char.isDigit then none
  else some v

/-! ### Error normalizer (src/app/errors.py and the handlers in main.py) -/

/-- Lowercase hexadecimal digit. -/
def hexDigit (n : Nat) : Char := "0123456789abcdef".data.getD n '0'

/-- Two-digit hex rendering of one byte. -/
def byteHexChars (b : PByte) : List Char := [hexDigit (b.val / 16), hexDigit (b.val % 16)]

/-- `str(uuid.UUID(...))`: 32 lowercase hex digits in 8-4-4-4-12 groups, as a
character list. The argument is the 16 random bytes drawn by `uuid4()`. -/
def uuidChars (bs : List PByte) : List Char :=
  let h := (bs.map byteHexChars).flatten
  h.take 8 ++ '-' :: (h.drop 8).take 4 ++ '-' :: (h.drop 12).take 4 ++
    '-' :: (h.drop 16).take 4 ++ '-' :: h.drop 20

/-- `str(uuid4())` with the drawn bytes explicit. -/
def uuidToString (bs : List PByte) : String := String.mk (uuidChars bs)

/-- One entry of a Python `loc` tuple (strings and integers). -/
inductive LocKey where
  | str : String → LocKey
  | int : Nat → LocKey
deriving DecidableEq

/-- A `ctx` value of a pydantic error: an `Exception` instance (carrying its
`str(...)`) or an already-serializable value (modelled by its rendering). -/
inductive CtxValue where
  | exc : String → CtxValue
  | val : String → CtxValue
deriving DecidableEq

/-- One entry of `RequestValidationError.errors()`. -/
structure ValidationErrorItem where
  loc : List LocKey
  msg : String
  type_ : String
  ctx : Option (List (String × CtxValue))
deriving DecidableEq

/-- A value of the RFC 7807 payload dict. -/
inductive PValue where
  | str : String → PValue
  | num : Nat → PValue
  | errs : List ValidationErrorItem → PValue
deriving DecidableEq

/-- The `JSONResponse` built by `problem` (payload dict and status code); JSON
serialization itself is framework code, out of scope. -/
structure ProblemResponse where
  payload : List (String × PValue)
  status_code : Nat
deriving DecidableEq

/-- `problem` from src/app/errors.py. The random UUID drawn by `uuid4()` is
the explicit `uuidBytes` parameter. -/
def problem (status : Nat) (title : String) (detail : String) (type_ : String)
    (extras : Option (List (String × PValue))) (uuidBytes : List PByte) :
    ProblemResponse :=
  let correlation_id := uuidToString uuidBytes
  let payload : List (String × PValue) :=
    [("type", .str type_), ("title", .str title), ("status", .num status),
     ("detail", .str detail), ("correlation_id", .str correlation_id)]
  let payload :=
    match extras with
    | none => payload
    | some ex => ex.foldl (fun acc kv => alistSet acc kv.1 kv.2) payload
  ⟨payload, status⟩

/-- The `ctx` sanitization in `validation_exception_handler`:
`str(value) if isinstance(value, Exception) else value`. -/
def sanitizeCtxValue : CtxValue → CtxValue
  | .exc s => .val s
  | .val s => .val s

/-- `error.copy()` with its `ctx` dict sanitized. -/
def sanitizeError (e : ValidationErrorItem) : ValidationErrorItem :=
  { e with ctx := e.ctx.map (List.map (fun kv => (kv.1, sanitizeCtxValue kv.2))) }

/-- `".".join(str(loc) for loc in error["loc"])`. -/
def locString (loc : List LocKey) : String :=
  String.intercalate "." (loc.map fun k => match k with
    | .str s => s
    | .int n => toString n)

/-- `validation_exception_handler` from src/app/main.py. -/
def validation_exception_handler (errors : List ValidationErrorItem)
    (uuidBytes : List PByte) : ProblemResponse :=
  let sanitized_errors := errors.map sanitizeError
  let error_details := errors.map (fun e => locString e.loc ++ ": " ++ e.msg)
  let detail := String.intercalate "; " error_details
  problem 422 "Validation Error" detail "about:blank"
    (some [("validation_errors", .errs sanitized_errors)]) uuidBytes

/-- `http_exception_handler` from src/app/main.py (string details only; a
non-string detail never occurs in this service). -/
def http_exception_handler (exc : HTTPError) (uuidBytes : List PByte) :
    ProblemResponse :=
  problem exc.status_code ("HTTP " ++ toString exc.status_code) exc.detail
    "about:blank" none uuidBytes

/-- Value of a lowercase hex digit (inverse of `hexDigit`). -/
def hexVal (c : Char) : Option Nat := "0123456789abcdef".data.indexOf? c

/-- Parse pairs of hex digits back into bytes (proof tool for injectivity of
the UUID rendering). -/
def parseHexBytes : List Char → Option (List PByte)
  | [] => some []
  | [_] => none
  | c1 :: c2 :: rest =>
    match hexVal c1, hexVal c2 with
    | some hi, some lo => (parseHexBytes rest).map (fun bs => mkByte (hi * 16 + lo) :: bs)
    | _, _ => none

theorem hexVal_hexDigit_all : ∀ n, n < 16 → hexVal (hexDigit n) = some n := by decide

theorem hexDigit_ne_dash_all : ∀ n, n < 16 → ¬(hexDigit n = '-') := by decide

theorem hexFlatten_length (bs : List PByte) :
    ((bs.map byteHexChars).flatten).length = 2 * bs.length := by
  induction bs with
  | nil => rfl
  | cons b t ih =>
    simp [byteHexChars, ih]
    omega

theorem hexFlatten_no_dash (bs : List PByte) :
    ∀ c ∈ (bs.map byteHexChars).flatten, c ≠ '-' := by
  induction bs with
  | nil => intro c hc; simp at hc
  | cons b t ih =>
    intro c hc
    have hb := b.isLt
    simp only [List.map_cons, List.flatten_cons, List.mem_append] at hc
    rcases hc with hc | hc
    · simp only [byteHexChars, List.mem_cons, List.not_mem_nil, or_false] at hc
      rcases hc with h | h
      · exact h ▸ hexDigit_ne_dash_all _ (by omega)
      · exact h ▸ hexDigit_ne_dash_all _ (by omega)
    · exact ih c hc

theorem parseHexBytes_flatten (bs : List PByte) :
    parseHexBytes ((bs.map byteHexChars).flatten) = some bs := by
  induction bs with
  | nil => rfl
  | cons b t ih =>
    have hb := b.isLt
    have h1 : b.val / 16 < 16 := by omega
    have h2 : b.val % 16 < 16 := by omega
    have q : mkByte (b.val / 16 * 16 + b.val % 16) = b := by
      apply Fin.ext
      show (b.val / 16 * 16 + b.val % 16) % 256 = b.val
      omega
    simp only [List.map_cons, List.flatten_cons, byteHexChars, List.cons_append,
      List.nil_append, parseHexBytes, hexVal_hexDigit_all _ h1, hexVal_hexDigit_all _ h2,
      ih, Option.map_some]
    simp [q, ih]

theorem take_drop_reassemble (h : List Char) :
    h.take 8 ++ (h.drop 8).take 4 ++ (h.drop 12).take 4 ++ (h.drop 16).take 4 ++
      h.drop 20 = h := by
  have e12 : (h.drop 8).drop 4 = h.drop 12 := by rw [List.drop_drop]
  have e16 : (h.drop 12).drop 4 = h.drop 16 := by rw [List.drop_drop]
  have e20 : (h.drop 16).drop 4 = h.drop 20 := by rw [List.drop_drop]
  simp only [List.append_assoc]
  rw [← e20, List.take_append_drop, ← e16, List.take_append_drop, ← e12,
    List.take_append_drop, List.take_append_drop]

theorem uuidChars_filter (bs : List PByte) :
    (uuidChars bs).filter (fun c => c != '-') = (bs.map byteHexChars).flatten := by
  have hmem : ∀ c ∈ (bs.map byteHexChars).flatten, (c != '-') = true := by
    intro c hc
    simpa using hexFlatten_no_dash bs c hc
  have hA : List.filter (fun c => c != '-') ((bs.map byteHexChars).flatten.take 8) =
      (bs.map byteHexChars).flatten.take 8 :=
    List.filter_eq_self.mpr (fun c hc => hmem c (List.mem_of_mem_take hc))
  have hB : ∀ n, List.filter (fun c => c != '-') (((bs.map byteHexChars).flatten.drop n).take 4) =
      ((bs.map byteHexChars).flatten.drop n).take 4 := fun n =>
    List.filter_eq_self.mpr
      (fun c hc => hmem c (List.mem_of_mem_drop (List.mem_of_mem_take hc)))
  have hE : List.filter (fun c => c != '-') ((bs.map byteHexChars).flatten.drop 20) =
      (bs.map byteHexChars).flatten.drop 20 :=
    List.filter_eq_self.mpr (fun c hc => hmem c (List.mem_of_mem_drop hc))
  have hdash : (('-' : Char) != '-') = false := by decide
  simp only [uuidChars, List.filter_append, List.filter_cons, hdash, if_false,
    Bool.false_eq_true, hA, hB, hE]
  exact take_drop_reassemble _

theorem uuidToString_inj (bs1 bs2 : List PByte)
    (h : uuidToString bs1 = uuidToString bs2) : bs1 = bs2 := by
  have hd : uuidChars bs1 = uuidChars bs2 := congrArg String.data h
  have hf := congrArg (List.filter (fun c => c != '-')) hd
  rw [uuidChars_filter, uuidChars_filter] at hf
  have hp := parseHexBytes_flatten bs1
  rw [hf, parseHexBytes_flatten] at hp
  injection hp with hp
  exact hp.symm

theorem uuidToString_length (bs : List PByte) (h : bs.length = 16) :
    (uuidToString bs).length = 36 := by
  have hl : ((bs.map byteHexChars).flatten).length = 32 := by
    rw [hexFlatten_length, h]
  show (uuidChars bs).length = 36
  simp [uuidChars, List.length_append, List.length_take, List.length_drop, hl]

theorem uuidToString_dash_count (bs : List PByte) :
    ((uuidToString bs).data.count '-') = 4 := by
  have hz : ∀ l : List Char, (∀ c ∈ l, c ≠ '-') → l.count '-' = 0 := by
    intro l hl
    exact List.count_eq_zero.mpr (fun hm => hl '-' hm rfl)
  have hA : ((bs.map byteHexChars).flatten.take 8).count '-' = 0 :=
    hz _ (fun c hc => hexFlatten_no_dash bs c (List.mem_of_mem_take hc))
  have hB : ∀ n, (((bs.map byteHexChars).flatten.drop n).take 4).count '-' = 0 := fun n =>
    hz _ (fun c hc => hexFlatten_no_dash bs c (List.mem_of_mem_drop (List.mem_of_mem_take hc)))
  have hE : ((bs.map byteHexChars).flatten.drop 20).count '-' = 0 :=
    hz _ (fun c hc => hexFlatten_no_dash bs c (List.mem_of_mem_drop hc))
  show (uuidChars bs).count '-' = 4
  simp [uuidChars, List.count_append, List.count_cons, hA, hB, hE]

/-! ### Supporting lemmas for the claim theorems -/

theorem foldl_alistSet_get_ne {V : Type} (ex : List (String × V)) (k : String)
    (acc : List (String × V)) (hx : ∀ kv ∈ ex, kv.1 ≠ k) :
    alistGet (ex.foldl (fun acc kv => alistSet acc kv.1 kv.2) acc) k = alistGet acc k := by
  induction ex generalizing acc with
  | nil => rfl
  | cons kv t ih =>
    have h1 : kv.1 ≠ k := hx kv (by simp)
    have ht : ∀ p ∈ t, p.1 ≠ k := fun p hp => hx p (by simp [hp])
    rw [List.foldl_cons, ih _ ht, alistGet_set_ne _ _ _ _ (fun h => h1 h.symm)]

theorem problem_correlation_id (status : Nat) (title detail type_ : String)
    (extras : Option (List (String × PValue))) (u : List PByte)
    (hx : ∀ l, extras = some l → ∀ kv ∈ l, kv.1 ≠ "correlation_id") :
    alistGet (problem status title detail type_ extras u).payload "correlation_id" =
      some (.str (uuidToString u)) := by
  unfold problem
  match extras with
  | none => rfl
  | some ex =>
    show alistGet (ex.foldl (fun acc kv => alistSet acc kv.1 kv.2) _) _ = _
    rw [foldl_alistSet_get_ne _ _ _ (hx ex rfl)]
    rfl

/-! ### Claim theorems -/

/-- C2: the claim states `verify_password` is total and returns false on every
malformed stored digest. The code only catches the missing-delimiter
`ValueError` from the split; a digest whose segment does not base64-decode
(e.g. `"a:b"`, one data character) raises an uncaught `binascii.Error`,
modelled as the `.error` outcome. The missing-delimiter case does return
false. This refutes the claim at the concrete input `("Str0ngPass123", "a:b")`
and confirms the part the code implements. -/
theorem verify_password_raises_on_undecodable_segment (pbkdf2 : PBKDF2) :
    verify_password pbkdf2 "Str0ngPass123" "a:b" = .error "binascii.Error" ∧
    verify_password pbkdf2 "Str0ngPass123" "nodelimiter" = .ok false :=
  ⟨rfl, rfl⟩

/-- C7: hashing the same password under two distinct salts yields distinct
digest strings, and each digest verifies against the original password. -/
theorem hash_password_salt_randomness (pbkdf2 : PBKDF2) (p : String)
    (s1 s2 : List PByte) (hne : s1 ≠ s2) :
    hash_password pbkdf2 s1 p ≠ hash_password pbkdf2 s2 p ∧
    verify_password pbkdf2 p (hash_password pbkdf2 s1 p) = .ok true ∧
    verify_password pbkdf2 p (hash_password pbkdf2 s2 p) = .ok true :=
  ⟨fun h => hne (hash_password_salt_inj pbkdf2 p s1 s2 h),
   verify_hash_password pbkdf2 s1 p, verify_hash_password pbkdf2 s2 p⟩

/-- Witness for C7 at concrete distinct one-byte salts. -/
theorem hash_password_salt_randomness_witness :
    (([⟨0, by norm_num⟩] : List PByte) ≠ [⟨1, by norm_num⟩]) ∧
    (hash_password (fun _ _ => []) [⟨0, by norm_num⟩] "Str0ngPass123" ≠
      hash_password (fun _ _ => []) [⟨1, by norm_num⟩] "Str0ngPass123" ∧
    verify_password (fun _ _ => []) "Str0ngPass123"
      (hash_password (fun _ _ => []) [⟨0, by norm_num⟩] "Str0ngPass123") = .ok true ∧
    verify_password (fun _ _ => []) "Str0ngPass123"
      (hash_password (fun _ _ => []) [⟨1, by norm_num⟩] "Str0ngPass123") = .ok true) :=
  ⟨by decide,
   hash_password_salt_randomness (fun _ _ => []) "Str0ngPass123" _ _ (by decide)⟩

/-- The freshly initialized (or reset) store: empty dicts, counters at 1. -/
def initialStore : Store := ⟨[], [], [], 1, 1, [], [], [], 1⟩

/-- C3: `authenticate_user` answers 401 with the identical detail string
`"Invalid credentials"` both for a normalized email absent from the directory
and for a present email whose stored digest fails verification, leaving the
store untouched; the two failure causes are indistinguishable to the caller. -/
theorem authenticate_user_uniform_unauthorized (pbkdf2 : PBKDF2) (token : String)
    (s : Store) (e p : String) :
    (alistGet s.users_by_email (_normalize_email e) = none →
      authenticate_user pbkdf2 token s ⟨e, p⟩ =
        (.httpError ⟨401, "Invalid credentials"⟩, s)) ∧
    (∀ uid record, alistGet s.users_by_email (_normalize_email e) = some uid →
      uid ≠ 0 → alistGet s.users uid = some record →
      verify_password pbkdf2 p record.password_hash = .ok false →
      authenticate_user pbkdf2 token s ⟨e, p⟩ =
        (.httpError ⟨401, "Invalid credentials"⟩, s)) := by
  constructor
  · intro h
    simp [authenticate_user, h]
  · intro uid record h1 h2 h3 h4
    simp [authenticate_user, h1, h2, h3, h4]

/-- Witness for C3: a store holding one user whose stored digest does not
verify; login fails identically for an unknown email and for that user. -/
theorem authenticate_user_uniform_unauthorized_witness :
    (alistGet initialStore.users_by_email (_normalize_email "ghost@x.com") = none ∧
      authenticate_user (fun _ _ => []) "tok" initialStore ⟨"ghost@x.com", "Pass1234"⟩ =
        (.httpError ⟨401, "Invalid credentials"⟩, initialStore)) ∧
    (alistGet (Store.mk [] [] [] 1 1 [(1, ⟨1, "bob@x.com", ""⟩)]
        [("bob@x.com", 1)] [] 2).users_by_email (_normalize_email "bob@x.com") = some 1 ∧
      authenticate_user (fun _ _ => []) "tok"
        (Store.mk [] [] [] 1 1 [(1, ⟨1, "bob@x.com", ""⟩)] [("bob@x.com", 1)] [] 2)
        ⟨"bob@x.com", "Pass1234"⟩ =
        (.httpError ⟨401, "Invalid credentials"⟩,
          Store.mk [] [] [] 1 1 [(1, ⟨1, "bob@x.com", ""⟩)] [("bob@x.com", 1)] [] 2)) :=
  ⟨⟨by decide,
    (authenticate_user_uniform_unauthorized (fun _ _ => []) "tok" initialStore
      "ghost@x.com" "Pass1234").1 (by decide)⟩,
   ⟨by decide,
    (authenticate_user_uniform_unauthorized (fun _ _ => []) "tok"
      (Store.mk [] [] [] 1 1 [(1, ⟨1, "bob@x.com", ""⟩)] [("bob@x.com", 1)] [] 2)
      "bob@x.com" "Pass1234").2 1 ⟨1, "bob@x.com", ""⟩
      (by decide) (by decide) (by decide) rfl⟩⟩

/-- C4: reading, updating and deleting a recipe answer the same
404 "Recipe not found" error both when the id is absent and when the recipe
belongs to a different owner (never a 403), leaving the store unchanged. -/
theorem recipe_ops_uniform_not_found (s : Store) (recipe_id owner_id : Nat)
    (payload : RecipeUpdate) :
    (alistGet s.recipes recipe_id = none →
      get_recipe s recipe_id owner_id = .httpError ⟨404, "Recipe not found"⟩ ∧
      Store.update_recipe s recipe_id owner_id payload =
        (.httpError ⟨404, "Recipe not found"⟩, s) ∧
      delete_recipe s recipe_id owner_id = (.httpError ⟨404, "Recipe not found"⟩, s)) ∧
    (∀ r, alistGet s.recipes recipe_id = some r → r.owner_id ≠ owner_id →
      get_recipe s recipe_id owner_id = .httpError ⟨404, "Recipe not found"⟩ ∧
      Store.update_recipe s recipe_id owner_id payload =
        (.httpError ⟨404, "Recipe not found"⟩, s) ∧
      delete_recipe s recipe_id owner_id = (.httpError ⟨404, "Recipe not found"⟩, s)) := by
  constructor
  · intro h
    exact ⟨by simp [get_recipe, h], by simp [Store.update_recipe, h],
      by simp [delete_recipe, h]⟩
  · intro r hr ho
    exact ⟨by simp [get_recipe, hr, ho], by simp [Store.update_recipe, hr, ho],
      by simp [delete_recipe, hr, ho]⟩

/-- Witness for C4: a store holding one recipe owned by user 1; user 2
requesting it gets the same 404 as a request for an absent id gets. -/
theorem recipe_ops_uniform_not_found_witness :
    (alistGet (Store.mk [] [] [(1, ⟨1, 1, "Cake", "Bake.", []⟩)] 1 2 [] [] [] 1).recipes 1 =
      some ⟨1, 1, "Cake", "Bake.", []⟩ ∧
      (1 : Nat) ≠ 2 ∧
      get_recipe (Store.mk [] [] [(1, ⟨1, 1, "Cake", "Bake.", []⟩)] 1 2 [] [] [] 1) 1 2 =
        .httpError ⟨404, "Recipe not found"⟩ ∧
      Store.update_recipe (Store.mk [] [] [(1, ⟨1, 1, "Cake", "Bake.", []⟩)] 1 2 [] [] [] 1)
          1 2 ⟨some "Pie", none, none⟩ =
        (.httpError ⟨404, "Recipe not found"⟩,
          Store.mk [] [] [(1, ⟨1, 1, "Cake", "Bake.", []⟩)] 1 2 [] [] [] 1) ∧
      delete_recipe (Store.mk [] [] [(1, ⟨1, 1, "Cake", "Bake.", []⟩)] 1 2 [] [] [] 1) 1 2 =
        (.httpError ⟨404, "Recipe not found"⟩,
          Store.mk [] [] [(1, ⟨1, 1, "Cake", "Bake.", []⟩)] 1 2 [] [] [] 1)) ∧
    (alistGet (Store.mk [] [] [(1, ⟨1, 1, "Cake", "Bake.", []⟩)] 1 2 [] [] [] 1).recipes 7 =
      none ∧
      get_recipe (Store.mk [] [] [(1, ⟨1, 1, "Cake", "Bake.", []⟩)] 1 2 [] [] [] 1) 7 2 =
        .httpError ⟨404, "Recipe not found"⟩) :=
  ⟨⟨by decide, by decide,
    (recipe_ops_uniform_not_found (Store.mk [] [] [(1, ⟨1, 1, "Cake", "Bake.", []⟩)] 1 2 [] [] [] 1)
      1 2 ⟨some "Pie", none, none⟩).2 ⟨1, 1, "Cake", "Bake.", []⟩ (by decide) (by decide)⟩,
   ⟨by decide,
    ((recipe_ops_uniform_not_found (Store.mk [] [] [(1, ⟨1, 1, "Cake", "Bake.", []⟩)] 1 2 [] [] [] 1)
      7 2 ⟨some "Pie", none, none⟩).1 (by decide)).1⟩⟩

/-- C5: the bearer dependency `get_current_user` answers 401 "Authorization
header missing" when no credentials were extracted, when the scheme lowered is
not "bearer", or when the stripped token is empty; otherwise it resolves the
stripped token through the session mapping. -/
theorem get_current_user_bearer_gate (s : Store) :
    (get_current_user s none = .httpError ⟨401, "Authorization header missing"⟩) ∧
    (∀ creds : HTTPAuthorizationCredentials, pyLower creds.scheme ≠ "bearer" →
      get_current_user s (some creds) =
        .httpError ⟨401, "Authorization header missing"⟩) ∧
    (∀ creds : HTTPAuthorizationCredentials, pyStrip creds.credentials = "" →
      get_current_user s (some creds) =
        .httpError ⟨401, "Authorization header missing"⟩) ∧
    (∀ creds : HTTPAuthorizationCredentials, pyLower creds.scheme = "bearer" →
      pyStrip creds.credentials ≠ "" →
      get_current_user s (some creds) = get_user_by_token s (pyStrip creds.credentials)) := by
  refine ⟨rfl, ?_, ?_, ?_⟩
  · intro creds h
    simp [get_current_user, h]
  · intro creds h
    by_cases hs : pyLower creds.scheme = "bearer"
    · simp [get_current_user, hs, h]
    · simp [get_current_user, hs]
  · intro creds hs ht
    simp [get_current_user, hs, ht]

/-- Witness for C5 at concrete credentials (wrong scheme, blank token, and a
well-formed bearer header). -/
theorem get_current_user_bearer_gate_witness :
    (pyLower (HTTPAuthorizationCredentials.mk "Basic" "abc").scheme ≠ "bearer" ∧
      get_current_user initialStore (some ⟨"Basic", "abc"⟩) =
        .httpError ⟨401, "Authorization header missing"⟩) ∧
    (pyStrip (HTTPAuthorizationCredentials.mk "Bearer" "   ").credentials = "" ∧
      get_current_user initialStore (some ⟨"Bearer", "   "⟩) =
        .httpError ⟨401, "Authorization header missing"⟩) ∧
    (pyLower (HTTPAuthorizationCredentials.mk "Bearer" " tok ").scheme = "bearer" ∧
      pyStrip (HTTPAuthorizationCredentials.mk "Bearer" " tok ").credentials ≠ "" ∧
      get_current_user initialStore (some ⟨"Bearer", " tok "⟩) =
        get_user_by_token initialStore (pyStrip " tok ")) :=
  ⟨⟨by decide, (get_current_user_bearer_gate initialStore).2.1 ⟨"Basic", "abc"⟩ (by decide)⟩,
   ⟨by decide, (get_current_user_bearer_gate initialStore).2.2.1 ⟨"Bearer", "   "⟩ (by decide)⟩,
   ⟨by decide, by decide,
    (get_current_user_bearer_gate initialStore).2.2.2 ⟨"Bearer", " tok "⟩
      (by decide) (by decide)⟩⟩

/-- C6: when two email strings normalize identically, a successful first
registration makes the second raise 409 "User already exists" and leave the
whole store (in particular the user directory) unchanged. -/
theorem create_user_duplicate_conflict (pbkdf2 : PBKDF2) (salt1 salt2 : List PByte)
    (s s1 : Store) (e1 e2 p1 p2 : String) (u : UserPublic)
    (hnorm : _normalize_email e1 = _normalize_email e2)
    (hfirst : create_user pbkdf2 salt1 s ⟨e1, p1⟩ = (.ok u, s1)) :
    create_user pbkdf2 salt2 s1 ⟨e2, p2⟩ =
      (.httpError ⟨409, "User already exists"⟩, s1) := by
  unfold create_user at hfirst ⊢
  by_cases hc : alistContains s.users_by_email (_normalize_email e1) = true
  · rw [if_pos hc] at hfirst
    exact absurd (congrArg Prod.fst hfirst) (by simp)
  · rw [if_neg hc] at hfirst
    rw [Prod.mk.injEq] at hfirst
    obtain ⟨h1, h2⟩ := hfirst
    subst h2
    have hcon : alistContains
        (alistSet s.users_by_email (_normalize_email e1) s.user_seq)
        (_normalize_email e2) = true := by
      rw [← hnorm]
      exact alistContains_set_self _ _ _
    simp [hcon]

/-- Witness for C6: register `A@x.com`, then register `\x20a@x.com\x20` into the
resulting store; the second call conflicts and returns that store unchanged. -/
theorem create_user_duplicate_conflict_witness :
    (_normalize_email "A@x.com" = _normalize_email " a@x.com ") ∧
    (create_user (fun _ _ => []) [] initialStore ⟨"A@x.com", "Pass1234"⟩ =
      (.ok ⟨1, "a@x.com"⟩,
        (create_user (fun _ _ => []) [] initialStore ⟨"A@x.com", "Pass1234"⟩).2)) ∧
    create_user (fun _ _ => []) []
        ((create_user (fun _ _ => []) [] initialStore ⟨"A@x.com", "Pass1234"⟩).2)
        ⟨" a@x.com ", "Pass5678"⟩ =
      (.httpError ⟨409, "User already exists"⟩,
        (create_user (fun _ _ => []) [] initialStore ⟨"A@x.com", "Pass1234"⟩).2) :=
  ⟨by decide, by decide,
   create_user_duplicate_conflict (fun _ _ => []) [] [] initialStore
     ((create_user (fun _ _ => []) [] initialStore ⟨"A@x.com", "Pass1234"⟩).2)
     "A@x.com" " a@x.com " "Pass1234" "Pass5678" ⟨1, "a@x.com"⟩
     (by decide) (by decide)⟩

/-- C10: a PATCH whose payload fields are all `None` is rejected with
400 "No fields to update" by the route handler before any store lookup, for
every store, recipe id and requester, leaving the store unchanged — whereas a
non-empty payload aimed at an absent id reaches the store and earns the usual
404. -/
theorem update_recipe_route_empty_payload (s : Store) (recipe_id owner_id : Nat)
    (payload : RecipeUpdate) :
    (payload.title = none → payload.steps = none → payload.ingredients = none →
      update_recipe_route s recipe_id payload owner_id =
        (.httpError ⟨400, "No fields to update"⟩, s)) ∧
    (¬ (payload.title = none ∧ payload.steps = none ∧ payload.ingredients = none) →
      alistGet s.recipes recipe_id = none →
      update_recipe_route s recipe_id payload owner_id =
        (.httpError ⟨404, "Recipe not found"⟩, s)) := by
  constructor
  · intro h1 h2 h3
    simp [update_recipe_route, h1, h2, h3]
  · intro hne hab
    simp only [update_recipe_route, if_neg hne]
    simp [Store.update_recipe, hab]

/-- Witness for C10: the all-`None` payload on an absent recipe id yields 400,
while a payload with a title yields 404 on the same absent id. -/
theorem update_recipe_route_empty_payload_witness :
    ((RecipeUpdate.mk none none none).title = none ∧
      (RecipeUpdate.mk none none none).steps = none ∧
      (RecipeUpdate.mk none none none).ingredients = none ∧
      update_recipe_route initialStore 7 ⟨none, none, none⟩ 1 =
        (.httpError ⟨400, "No fields to update"⟩, initialStore)) ∧
    (¬ ((RecipeUpdate.mk (some "Pie") none none).title = none ∧
        (RecipeUpdate.mk (some "Pie") none none).steps = none ∧
        (RecipeUpdate.mk (some "Pie") none none).ingredients = none) ∧
      alistGet initialStore.recipes 7 = none ∧
      update_recipe_route initialStore 7 ⟨some "Pie", none, none⟩ 1 =
        (.httpError ⟨404, "Recipe not found"⟩, initialStore)) :=
  ⟨⟨rfl, rfl, rfl,
    (update_recipe_route_empty_payload initialStore 7 1 ⟨none, none, none⟩).1 rfl rfl rfl⟩,
   ⟨by decide, rfl,
    (update_recipe_route_empty_payload initialStore 7 1 ⟨some "Pie", none, none⟩).2
      (by decide) rfl⟩⟩

/-- C8: for a non-empty validation-error list, the normalized response has
status 422, a `detail` field that semicolon-joins one "field: message" entry
per error (field being the dot-joined location), and the full sanitized
per-field error list under the `validation_errors` key. -/
theorem validation_handler_shape (errors : List ValidationErrorItem)
    (u : List PByte) (hne : errors ≠ []) :
    (validation_exception_handler errors u).status_code = 422 ∧
    alistGet (validation_exception_handler errors u).payload "detail" =
      some (.str (String.intercalate "; "
        (errors.map (fun e => locString e.loc ++ ": " ++ e.msg)))) ∧
    alistGet (validation_exception_handler errors u).payload "validation_errors" =
      some (.errs (errors.map sanitizeError)) := by
  refine ⟨rfl, ?_, ?_⟩ <;> rfl

/-- Witness for C8: one missing-field error for `body.title`. -/
theorem validation_handler_shape_witness :
    ([ValidationErrorItem.mk [.str "body", .str "title"] "Field required"
        "missing" none] ≠ []) ∧
    ((validation_exception_handler
        [⟨[.str "body", .str "title"], "Field required", "missing", none⟩] []).status_code
        = 422 ∧
      alistGet (validation_exception_handler
          [⟨[.str "body", .str "title"], "Field required", "missing", none⟩] []).payload
          "detail" =
        some (.str (String.intercalate "; "
          ([ValidationErrorItem.mk [.str "body", .str "title"] "Field required"
              "missing" none].map (fun e => locString e.loc ++ ": " ++ e.msg)))) ∧
      alistGet (validation_exception_handler
          [⟨[.str "body", .str "title"], "Field required", "missing", none⟩] []).payload
          "validation_errors" =
        some (.errs ([ValidationErrorItem.mk [.str "body", .str "title"] "Field required"
            "missing" none].map sanitizeError))) :=
  ⟨by decide,
   validation_handler_shape
     [⟨[.str "body", .str "title"], "Field required", "missing", none⟩] [] (by decide)⟩

/-- C9: every response built by `problem` (when, as in this service, the
extras never use the reserved key) carries `correlation_id` equal to the
rendering of the drawn UUID, that rendering is the canonical 36-character,
4-hyphen form, and two responses built from distinct random draws carry
different `correlation_id` strings. -/
theorem problem_correlation_id_fresh (st1 st2 : Nat)
    (ti1 ti2 de1 de2 ty1 ty2 : String)
    (ex1 ex2 : Option (List (String × PValue))) (u1 u2 : List PByte)
    (hl1 : u1.length = 16) (hl2 : u2.length = 16) (hne : u1 ≠ u2)
    (hx1 : ∀ l, ex1 = some l → ∀ kv ∈ l, kv.1 ≠ "correlation_id")
    (hx2 : ∀ l, ex2 = some l → ∀ kv ∈ l, kv.1 ≠ "correlation_id") :
    alistGet (problem st1 ti1 de1 ty1 ex1 u1).payload "correlation_id" =
      some (.str (uuidToString u1)) ∧
    alistGet (problem st2 ti2 de2 ty2 ex2 u2).payload "correlation_id" =
      some (.str (uuidToString u2)) ∧
    uuidToString u1 ≠ uuidToString u2 ∧
    (uuidToString u1).length = 36 ∧ (uuidToString u1).data.count '-' = 4 ∧
    (uuidToString u2).length = 36 ∧ (uuidToString u2).data.count '-' = 4 :=
  ⟨problem_correlation_id st1 ti1 de1 ty1 ex1 u1 hx1,
   problem_correlation_id st2 ti2 de2 ty2 ex2 u2 hx2,
   fun h => hne (uuidToString_inj u1 u2 h),
   uuidToString_length u1 hl1, uuidToString_dash_count u1,
   uuidToString_length u2 hl2, uuidToString_dash_count u2⟩

/-- Witness for C9: two concrete distinct 16-byte draws, rendered and compared
inside two concrete `problem` responses. -/
theorem problem_correlation_id_fresh_witness :
    (List.replicate 16 (0 : PByte)).length = 16 ∧
    ((0 : PByte) :: List.replicate 15 (1 : PByte)).length = 16 ∧
    List.replicate 16 (0 : PByte) ≠ (0 : PByte) :: List.replicate 15 (1 : PByte) ∧
    (alistGet (problem 404 "HTTP 404" "Recipe not found" "about:blank" none
        (List.replicate 16 (0 : PByte))).payload "correlation_id" =
      some (.str (uuidToString (List.replicate 16 (0 : PByte)))) ∧
    alistGet (problem 409 "HTTP 409" "User already exists" "about:blank" none
        ((0 : PByte) :: List.replicate 15 (1 : PByte))).payload "correlation_id" =
      some (.str (uuidToString ((0 : PByte) :: List.replicate 15 (1 : PByte)))) ∧
    uuidToString (List.replicate 16 (0 : PByte)) ≠
      uuidToString ((0 : PByte) :: List.replicate 15 (1 : PByte)) ∧
    (uuidToString (List.replicate 16 (0 : PByte))).length = 36 ∧
    (uuidToString (List.replicate 16 (0 : PByte))).data.count '-' = 4 ∧
    (uuidToString ((0 : PByte) :: List.replicate 15 (1 : PByte))).length = 36 ∧
    (uuidToString ((0 : PByte) :: List.replicate 15 (1 : PByte))).data.count '-' = 4) :=
  ⟨by decide, by decide, by decide,
   problem_correlation_id_fresh 404 409 "HTTP 404" "HTTP 409" "Recipe not found"
     "User already exists" "about:blank" "about:blank" none none
     (List.replicate 16 (0 : PByte)) ((0 : PByte) :: List.replicate 15 (1 : PByte))
     (by decide) (by decide) (by decide)
     (fun l h => Option.noConfusion h) (fun l h => Option.noConfusion h)⟩

/-- C1: for credentials accepted by the registration validators, a successful
registration followed by a login with the same credentials succeeds, and
resolving the issued token yields a public user whose email is the normalized
email that registration returned. The `user_seq` hypothesis is the store
invariant that its `itertools.count` starts at 1. -/
theorem register_login_resolve_roundtrip (pbkdf2 : PBKDF2) (salt : List PByte)
    (token : String) (s s1 : Store) (rawEmail rawPassword email password : String)
    (u : UserPublic)
    (hEmail : validate_email_field rawEmail = some email)
    (hPassword : validate_password_field rawPassword = some password)
    (hSeq : 1 ≤ s.user_seq)
    (hCreate : create_user pbkdf2 salt s ⟨email, password⟩ = (.ok u, s1)) :
    ∃ s2, authenticate_user pbkdf2 token s1 ⟨email, password⟩ = (.ok token, s2) ∧
      get_user_by_token s2 token = .ok ⟨u.id, u.email⟩ ∧
      u.email = _normalize_email email := by
  have hne0 : s.user_seq ≠ 0 := by omega
  unfold create_user at hCreate
  by_cases hc : alistContains s.users_by_email (_normalize_email email) = true
  · rw [if_pos hc] at hCreate
    exact absurd (congrArg Prod.fst hCreate) (by simp)
  · rw [if_neg hc] at hCreate
    rw [Prod.mk.injEq] at hCreate
    obtain ⟨h1, h2⟩ := hCreate
    injection h1 with hu
    subst hu
    subst h2
    refine ⟨Store.mk s.ingredients s.ingredients_by_name s.recipes s.ingredient_seq
      s.recipe_seq
      (alistSet s.users s.user_seq
        ⟨s.user_seq, _normalize_email email, hash_password pbkdf2 salt password⟩)
      (alistSet s.users_by_email (_normalize_email email) s.user_seq)
      (alistSet s.sessions token s.user_seq)
      (s.user_seq + 1), ?_, ?_, ?_⟩
    · unfold authenticate_user
      simp only [alistGet_set_self, verify_hash_password, if_neg hne0]
    · unfold get_user_by_token get_user
      simp only [alistGet_set_self, if_neg hne0]
    · rfl

/-- Witness for C1: register and log in `alice@example.com` with
`Str0ngPass123` on a fresh store. -/
theorem register_login_resolve_roundtrip_witness :
    validate_email_field "Alice@Example.com" = some "alice@example.com" ∧
    validate_password_field "Str0ngPass123" = some "Str0ngPass123" ∧
    1 ≤ initialStore.user_seq ∧
    create_user (fun _ _ => []) [] initialStore ⟨"alice@example.com", "Str0ngPass123"⟩ =
      (.ok ⟨1, "alice@example.com"⟩,
        (create_user (fun _ _ => []) [] initialStore
          ⟨"alice@example.com", "Str0ngPass123"⟩).2) ∧
    (∃ s2, authenticate_user (fun _ _ => []) "tok"
        ((create_user (fun _ _ => []) [] initialStore
          ⟨"alice@example.com", "Str0ngPass123"⟩).2)
        ⟨"alice@example.com", "Str0ngPass123"⟩ = (.ok "tok", s2) ∧
      get_user_by_token s2 "tok" =
        .ok ⟨(UserPublic.mk 1 "alice@example.com").id,
             (UserPublic.mk 1 "alice@example.com").email⟩ ∧
      (UserPublic.mk 1 "alice@example.com").email = _normalize_email "alice@example.com") :=
  ⟨by decide, by decide, by decide, by decide,
   register_login_resolve_roundtrip (fun _ _ => []) [] "tok" initialStore _
     "Alice@Example.com" "Str0ngPass123" "alice@example.com" "Str0ngPass123"
     ⟨1, "alice@example.com"⟩ (by decide) (by decide) (by decide) (by decide)⟩
